import Mathlib

/-!
# Verification of the mock RAOIDC OIDC provider and auth callback

A shallow embedding of the authentication subsystem of the repository:

* `handleAuthorizeRequest` / `handleTokenRequest` from
  `frontend/app/routes/dev/stub-login.tsx` (the mock RAOIDC provider),
* the token generators `generateAccessToken`, `generateIdToken`,
  `generateUserinfoToken` from the same file,
* the in-memory `tokenCache` together with the `setTimeout`-scheduled
  deletions, modelled as an explicit cache state with pending timers,
* the auth callback handler `handleCallback` from the callback route.

JavaScript `null`/`undefined` values coming out of `searchParams.get` and
`formData.get(...)?.toString()` are modelled as `Option String`; JS
truthiness of a string (`!s` is true for `null`/`undefined`/`""`) is the
`truthy` predicate; template-literal interpolation of a possibly-null value
is `jsInterp`.  Time is an integer number of seconds; a `setTimeout(f, 30_000)`
becomes a pending timer that fires once the clock passes its deadline.
-/

/-- Server environment configuration used by the mock provider
(`serverEnvironment` fields referenced in `stub-login.tsx`). -/
structure Env where
  clientId : String
  issuer : String
  serverPublicKey : String
  serverPrivateKey : String
  clientPublicKey : String
  deriving Repr, DecidableEq

/-- JS truthiness of an optional string: `null`, `undefined` and `""` are falsy. -/
def truthy : Option String → Bool
  | none => false
  | some s => s ≠ ""

/-- JS template-literal interpolation of a possibly-null string:
`` `${null}` `` produces the literal string `"null"`. -/
def jsInterp : Option String → String
  | none => "null"
  | some s => s

/-- `HttpStatusCodes.BAD_REQUEST` (the `HttpStatusCodes` module is not among
the provided sources; the spec states the client-error status is 400). -/
def BAD_REQUEST : Nat := 400

/-- Modelled from the spec: `randomString` (from `~/utils/string-utils`) is not
among the provided sources.  The spec describes the authorization code as a
"freshly generated high-entropy code" of "≥32 chars of randomness"; the source
calls `randomString(32)`.  We model it as a deterministic function of a seed
producing exactly `len` characters. -/
def randomString (len : Nat) (seed : Nat) : String :=
  String.mk ((List.range len).map (fun i => Char.ofNat (97 + (seed + i) % 26)))

/-- `ALLOWED_CALLBACKS` from `stub-login.tsx`: relative callback paths. -/
def ALLOWED_CALLBACKS : List String := ["/auth/callback"]

/-- `getAllowedCallbacks`: resolves each relative allowed callback against the
request origin (`new URL(path, origin).toString()` for a path-absolute path
appends the path to the origin). -/
def getAllowedCallbacks (origin : String) : List String :=
  ALLOWED_CALLBACKS.map (fun allowedCallback => origin ++ allowedCallback)

/-- JWT claim set produced by the `jose` `SignJWT` builder calls in the token
generators.  `extra` holds the payload claims passed to the `SignJWT`
constructor (`locale`, `nonce`, `birthdate`, `sin`). -/
structure JwtClaims where
  iss : String
  aud : String
  sub : String
  jti : String
  iat : Int
  exp : Int
  nbf : Int
  extra : List (String × String)
  deriving Repr, DecidableEq

/-- A cryptographic key, identified by its PEM material as held in the
environment: `spki` is a public key (`importSPKI`), `pkcs8` a private key
(`importPKCS8`). -/
inductive Key where
  | spki (pem : String)
  | pkcs8 (pem : String)
  deriving Repr, DecidableEq

/-- A compact token as built by the generators: a claim set signed with a key
(`SignJWT...sign`), optionally wrapped by encryption to a key
(`CompactEncrypt...encrypt`). -/
inductive JoseToken where
  | signed (claims : JwtClaims) (signKey : Key) : JoseToken
  | encrypted (inner : JoseToken) (encKey : Key) : JoseToken
  deriving Repr, DecidableEq

/-- The claim set carried (possibly under encryption) by a token. -/
def JoseToken.claims : JoseToken → JwtClaims
  | .signed c _ => c
  | .encrypted inner _ => inner.claims

/-- The all-zero UUID used by the generators for `jti` and `sub`. -/
def zeroUuid : String := "00000000-0000-0000-0000-000000000000"

/-- `generateAccessToken`: signs an empty payload with the server's private
key, claims `aud = AUTH_RAOIDC_CLIENT_ID`, `exp = now + 20m`, `iat = now`,
`iss = AUTH_RAOIDC_ISSUER`, `nbf = now - 30s`, then encrypts the signed token
with the **server's** public key. -/
def generateAccessToken (env : Env) (now : Int) (nonce : String) : JoseToken :=
  JoseToken.encrypted
    (JoseToken.signed
      { iss := env.issuer
        aud := env.clientId
        sub := zeroUuid
        jti := zeroUuid
        iat := now
        exp := now + 20 * 60
        nbf := now - 30
        extra := [] }
      (Key.pkcs8 env.serverPrivateKey))
    (Key.spki env.serverPublicKey)

/-- `generateIdToken`: signs a payload `{locale, nonce}` with the server's
private key (same standard claims as the access token), then encrypts the
signed token with the **client's** public key. -/
def generateIdToken (env : Env) (now : Int) (locale : String) (nonce : String) : JoseToken :=
  JoseToken.encrypted
    (JoseToken.signed
      { iss := env.issuer
        aud := env.clientId
        sub := zeroUuid
        jti := zeroUuid
        iat := now
        exp := now + 20 * 60
        nbf := now - 30
        extra := [("locale", locale), ("nonce", nonce)] }
      (Key.pkcs8 env.serverPrivateKey))
    (Key.spki env.clientPublicKey)

/-- `generateUserinfoToken`: signs a payload `{birthdate, locale, sin}` with
the server's private key, then encrypts the signed token with the
**client's** public key. -/
def generateUserinfoToken (env : Env) (now : Int) (birthdate locale sin : String) : JoseToken :=
  JoseToken.encrypted
    (JoseToken.signed
      { iss := env.issuer
        aud := env.clientId
        sub := zeroUuid
        jti := zeroUuid
        iat := now
        exp := now + 20 * 60
        nbf := now - 30
        extra := [("birthdate", birthdate), ("locale", locale), ("sin", sin)] }
      (Key.pkcs8 env.serverPrivateKey))
    (Key.spki env.clientPublicKey)

/-- The value type of the `tokenCache` map
(`{ accessToken: string; idToken: string }`, tokens kept structured). -/
structure TokenPair where
  accessToken : JoseToken
  idToken : JoseToken
  deriving Repr, DecidableEq

/-- `Map.set`: replace the binding for `k` if present, else insert it. -/
def mapSet (m : List (String × TokenPair)) (k : String) (v : TokenPair) :
    List (String × TokenPair) :=
  if m.any (fun kv => kv.1 = k) then
    m.map (fun kv => if kv.1 = k then (k, v) else kv)
  else
    m ++ [(k, v)]

/-- `Map.get`: the value bound to `k`, or `undefined`. -/
def mapGet (m : List (String × TokenPair)) (k : String) : Option TokenPair :=
  (m.find? (fun kv => kv.1 = k)).map (fun kv => kv.2)

/-- `Map.delete`: remove any binding for `k` (idempotent). -/
def mapDelete (m : List (String × TokenPair)) (k : String) :
    List (String × TokenPair) :=
  m.filter (fun kv => kv.1 ≠ k)

/-- The `tokenCache` together with the pending `setTimeout`-scheduled
deletions: each timer `(code, deadline)` deletes `code` once the clock
reaches `deadline`. -/
structure CacheState where
  entries : List (String × TokenPair)
  timers : List (String × Int)
  deriving Repr, DecidableEq

/-- Advance the clock to time `t`: every timer whose deadline has passed fires
(deleting its code from the map, idempotently) and is removed. -/
def fireTimers (t : Int) (c : CacheState) : CacheState :=
  { entries := c.timers.foldl
      (fun es kt => if kt.2 ≤ t then mapDelete es kt.1 else es) c.entries
    timers := c.timers.filter (fun kt => ¬ kt.2 ≤ t) }

/-- Query parameters read by `handleAuthorizeRequest` via `searchParams.get`
(absent parameters are `none`). -/
structure AuthorizeParams where
  client_id : Option String
  nonce : Option String
  redirect_uri : Option String
  scope : Option String
  state : Option String
  deriving Repr, DecidableEq

/-- Outcome of the authorize endpoint: a JSON `{error}` response with a
status, or a redirect (react-router `redirect` defaults to status 302). -/
inductive AuthorizeResult where
  | error (status : Nat) (error : String)
  | redirect (status : Nat) (location : String)
  deriving Repr, DecidableEq

/-- `handleAuthorizeRequest`: validates `client_id`, `nonce`, `redirect_uri`
(only when supplied), `scope`, `state` in order, failing fast with a 400
`{error}` JSON body; on success generates `authCode = randomString(32)`,
mints an access token and an id token, stores them in the cache, schedules
deletion of the entry 30 seconds later, and redirects to
`` `${redirectUri}?code=${authCode}&state=${state}` ``.
`now` is the clock at the request, `entropy` the randomness consumed by
`randomString`. -/
def handleAuthorizeRequest (env : Env) (origin : String) (p : AuthorizeParams)
    (now : Int) (entropy : Nat) (c : CacheState) : AuthorizeResult × CacheState :=
  let allowedRedirectUris := getAllowedCallbacks origin
  if p.client_id ≠ some env.clientId then
    (AuthorizeResult.error BAD_REQUEST "invalid_client_id", c)
  else if ¬ truthy p.nonce then
    (AuthorizeResult.error BAD_REQUEST "invalid_nonce", c)
  else if truthy p.redirect_uri ∧ ¬ allowedRedirectUris.contains (jsInterp p.redirect_uri) then
    (AuthorizeResult.error BAD_REQUEST "invalid_redirect_uri", c)
  else if ¬ truthy p.scope then
    (AuthorizeResult.error BAD_REQUEST "invalid_scope", c)
  else if ¬ truthy p.state then
    (AuthorizeResult.error BAD_REQUEST "invalid_state", c)
  else
    let authCode := randomString 32 entropy
    let accessToken := generateAccessToken env now (jsInterp p.nonce)
    let idToken := generateIdToken env now "en-CA" (jsInterp p.nonce)
    (AuthorizeResult.redirect 302
        (jsInterp p.redirect_uri ++ "?code=" ++ authCode ++ "&state=" ++ jsInterp p.state),
      { entries := mapSet c.entries authCode ⟨accessToken, idToken⟩
        timers := (authCode, now + 30) :: c.timers })

/-- Form fields read by `handleTokenRequest` via `formData.get(...)?.toString()`
(absent fields are `none`). -/
structure TokenParams where
  client_assertion : Option String
  client_assertion_type : Option String
  client_id : Option String
  code : Option String
  grant_type : Option String
  redirect_uri : Option String
  deriving Repr, DecidableEq

/-- Outcome of the token endpoint: a JSON `{error}` with a status, or the
success JSON body. -/
inductive TokenResult where
  | error (status : Nat) (error : String)
  | success (token_type : String) (access_token : JoseToken) (id_token : JoseToken)
      (expires_in : Nat)
  deriving Repr, DecidableEq

/-- The expected `client_assertion_type` constant. -/
def JWT_BEARER : String := "urn:ietf:params:oauth:client-assertion-type:jwt-bearer"

/-- `handleTokenRequest`: validates `client_assertion_type`, `client_id`,
`client_assertion`, `code`, `grant_type`, `redirect_uri` (only when supplied)
in order, failing fast with a 400 `{error}` JSON body; then reads the cache at
`code` and schedules deletion of that code 30 seconds later (`setTimeout(...,
30_000)` — the source does **not** delete immediately); a cache miss yields
`invalid_auth_code`, a hit yields
`{token_type: "Bearer", access_token, id_token, expires_in: 300}`. -/
def handleTokenRequest (env : Env) (origin : String) (p : TokenParams)
    (now : Int) (c : CacheState) : TokenResult × CacheState :=
  let allowedRedirectUris := getAllowedCallbacks origin
  if p.client_assertion_type ≠ some JWT_BEARER then
    (TokenResult.error BAD_REQUEST "invalid_client_assertion_type", c)
  else if p.client_id ≠ some env.clientId then
    (TokenResult.error BAD_REQUEST "invalid_client", c)
  else if ¬ truthy p.client_assertion then
    (TokenResult.error BAD_REQUEST "invalid_client_assertion", c)
  else if ¬ truthy p.code then
    (TokenResult.error BAD_REQUEST "invalid_code", c)
  else if p.grant_type ≠ some "authorization_code" then
    (TokenResult.error BAD_REQUEST "invalid_grant_type", c)
  else if truthy p.redirect_uri ∧ ¬ allowedRedirectUris.contains (jsInterp p.redirect_uri) then
    (TokenResult.error BAD_REQUEST "invalid_redirect_uri", c)
  else
    let authCode := jsInterp p.code
    let tokenSet := mapGet c.entries authCode
    let c' : CacheState := { c with timers := (authCode, now + 30) :: c.timers }
    match tokenSet with
    | none => (TokenResult.error BAD_REQUEST "invalid_auth_code", c')
    | some ts =>
        (TokenResult.success "Bearer" ts.accessToken ts.idToken (5 * 60), c')

/-- `loginState` stored in the browser session (`express-session.ts`). -/
structure LoginState where
  codeVerifier : String
  nonce : String
  returnUrl : Option String
  state : String
  deriving Repr, DecidableEq

/-- `stubloginState` stored in the browser session. -/
structure StubLoginState where
  birthdate : Option String
  locale : Option String
  sin : Option String
  deriving Repr, DecidableEq

/-- Decrypted token set returned by the RAOIDC client's
`handleCallbackRequest` and stored as `authState`. -/
structure AuthState where
  accessToken : String
  idTokenClaims : JwtClaims
  userinfoTokenClaims : JwtClaims
  deriving Repr, DecidableEq

/-- The browser session as mutated by the callback route: the three optional
session slots it touches. -/
structure Session where
  loginState : Option LoginState
  stubloginState : Option StubLoginState
  authState : Option AuthState
  deriving Repr, DecidableEq

/-- Outcome of the callback route: a JSON `{message}` error response with a
status, or a redirect to the return URL. -/
inductive CallbackResult where
  | jsonError (status : Nat) (message : String)
  | redirect (location : String)
  deriving Repr, DecidableEq

/-- `handleCallback` from the auth callback route: if the session holds no
`loginState` it returns a 400 `{message: "Invalid login state"}` without
touching the session or calling the token exchange; otherwise it performs the
token exchange (`raoidcClient.handleCallbackRequest`, an external call modelled
by the `exchange` oracle), stores the resulting token set as `authState`,
deletes `loginState` and `stubloginState`, and redirects to the stored return
URL (defaulting to `/en` on the request origin).  The returned `Bool` records
whether the token exchange was performed. -/
def handleCallback (origin : String)
    (exchange : String → String → String → AuthState)
    (s : Session) : CallbackResult × Session × Bool :=
  match s.loginState with
  | none => (CallbackResult.jsonError BAD_REQUEST "Invalid login state", s, false)
  | some ls =>
      let returnUrl := ls.returnUrl.getD (origin ++ "/en")
      let tokenSet := exchange ls.codeVerifier ls.nonce ls.state
      (CallbackResult.redirect returnUrl,
        { loginState := none, stubloginState := none, authState := some tokenSet },
        true)

/-- Token purposes distinguished by the Token Codec. -/
inductive Purpose where
  | access
  | id
  | userinfo
  deriving Repr, DecidableEq

/-- Key material configuration of the codec: key pairs are identified by an
id; the public and private halves of a pair share the id. -/
structure CodecEnv where
  issuerKeyId : String
  clientKeyId : String
  deriving Repr, DecidableEq

/-- The purpose-dependent encryption target key (its pair id): access tokens
are wrapped with the issuer's own public key, id/userinfo tokens with the
relying party's public key. -/
def encTargetKeyId (e : CodecEnv) : Purpose → String
  | Purpose.access => e.issuerKeyId
  | Purpose.id => e.clientKeyId
  | Purpose.userinfo => e.clientKeyId

/-- A signed-then-encrypted compact token: the claims, the id of the signing
key pair (signed with its private half), and the id of the wrapping key pair
(encrypted to its public half). -/
structure SealedToken where
  claims : JwtClaims
  sigKeyId : String
  encKeyId : String
  deriving Repr, DecidableEq

/-- Modelled from the spec: the Token Codec contract
`sign_and_encrypt(claims, purpose) -> token_string` — the decrypt side of the
codec lives in the RAOIDC client (`~/.server/auth/raoidc-client`), which is
not among the provided sources.  Claims are signed with the issuer's private
signing key and encrypted to the purpose-dependent target public key. -/
def sign_and_encrypt (e : CodecEnv) (claims : JwtClaims) (p : Purpose) : SealedToken :=
  { claims := claims
    sigKeyId := e.issuerKeyId
    encKeyId := encTargetKeyId e p }

/-- Modelled from the spec: the Token Codec contract
`decrypt_and_verify(token_string, expected_purpose) -> claims | failure`,
performed by the holder of the private key `privKeyId`.  Decryption fails
unless the holder's private key matches the key the token was encrypted to
and that key is the expected purpose's target; signature verification fails
unless the token was signed with the issuer's signing key.  All failures
collapse to a single failure outcome (`none`). -/
def decrypt_and_verify (e : CodecEnv) (t : SealedToken) (p : Purpose)
    (privKeyId : String) : Option JwtClaims :=
  if t.encKeyId = privKeyId ∧ privKeyId = encTargetKeyId e p ∧ t.sigKeyId = e.issuerKeyId then
    some t.claims
  else
    none

/-- A concrete environment matching the repository's development defaults
(`AUTH_RAOIDC_CLIENT_ID`, `AUTH_RAOIDC_ISSUER`). -/
def sampleEnv : Env :=
  { clientId := "00000000-0000-0000-0000-000000000000"
    issuer := "MOCK_RAOIDC"
    serverPublicKey := "SERVER_PUBLIC_KEY_PEM"
    serverPrivateKey := "SERVER_PRIVATE_KEY_PEM"
    clientPublicKey := "CLIENT_PUBLIC_KEY_PEM" }

/-- A concrete request origin. -/
def sampleOrigin : String := "https://app.example"

/-- A concrete valid authorize request against `sampleEnv`/`sampleOrigin`. -/
def sampleAuthorizeParams : AuthorizeParams :=
  { client_id := some "00000000-0000-0000-0000-000000000000"
    nonce := some "n1"
    redirect_uri := some "https://app.example/auth/callback"
    scope := some "openid"
    state := some "s1" }

/-- A concrete valid token request presenting `code`. -/
def sampleTokenParams (code : String) : TokenParams :=
  { client_assertion := some "client-assertion-jwt"
    client_assertion_type := some JWT_BEARER
    client_id := some "00000000-0000-0000-0000-000000000000"
    code := some code
    grant_type := some "authorization_code"
    redirect_uri := some "https://app.example/auth/callback" }

/-- A concrete codec configuration for witnesses. -/
def sampleCodecEnv : CodecEnv := { issuerKeyId := "issuer-key", clientKeyId := "client-key" }

/-- A concrete claim set for codec witnesses. -/
def sampleClaims : JwtClaims :=
  { iss := "MOCK_RAOIDC", aud := "00000000-0000-0000-0000-000000000000"
    sub := zeroUuid, jti := zeroUuid, iat := 0, exp := 1200, nbf := -30
    extra := [("nonce", "n1")] }

theorem randomString_length (len seed : Nat) : (randomString len seed).length = len := by
  simp [randomString]

theorem randomString_ne_empty (seed : Nat) : randomString 32 seed ≠ "" := by
  intro h
  have := randomString_length 32 seed
  rw [h] at this
  simp at this

theorem mapGet_mapDelete_self (m : List (String × TokenPair)) (k : String) :
    mapGet (mapDelete m k) k = none := by
  induction m with
  | nil => rfl
  | cons kv tl ih =>
      by_cases h : kv.1 = k
      · simpa [mapDelete, h] using ih
      · simpa [mapDelete, mapGet, List.find?, h] using ih

theorem mapGet_mapDelete_of_none (m : List (String × TokenPair)) (k k' : String)
    (h : mapGet m k = none) : mapGet (mapDelete m k') k = none := by
  induction m with
  | nil => rfl
  | cons kv tl ih =>
      by_cases hk : kv.1 = k
      · simp [mapGet, List.find?, hk] at h
      · have htl : mapGet tl k = none := by
          simpa [mapGet, List.find?, hk] using h
        by_cases hk' : kv.1 = k'
        · simpa [mapDelete, hk'] using ih htl
        · simpa [mapDelete, mapGet, List.find?, hk, hk'] using ih htl

theorem mapGet_foldl_delete_none (ts : List (String × Int)) (t : Int)
    (es : List (String × TokenPair)) (k : String) (h : mapGet es k = none) :
    mapGet (ts.foldl (fun es kt => if kt.2 ≤ t then mapDelete es kt.1 else es) es) k = none := by
  induction ts generalizing es with
  | nil => exact h
  | cons kt tl ih =>
      simp only [List.foldl_cons]
      by_cases hle : kt.2 ≤ t
      · exact ih _ (by simpa [hle] using mapGet_mapDelete_of_none es k kt.1 h)
      · exact ih _ (by simpa [hle] using h)

theorem fireTimers_deletes_due_code (t d : Int) (k : String)
    (ts : List (String × Int)) (es : List (String × TokenPair)) (h : d ≤ t) :
    mapGet (fireTimers t ⟨es, (k, d) :: ts⟩).entries k = none := by
  simp only [fireTimers, List.foldl_cons]
  exact mapGet_foldl_delete_none ts t _ k (by simpa [h] using mapGet_mapDelete_self es k)

theorem mapGet_mapSet_self (m : List (String × TokenPair)) (k : String) (v : TokenPair) :
    mapGet (mapSet m k v) k = some v := by
  by_cases h : m.any (fun kv => kv.1 = k)
  · simp only [mapSet, h, if_pos]
    induction m with
    | nil => simp at h
    | cons kv tl ih =>
        by_cases hk : kv.1 = k
        · simp [mapGet, List.find?, hk]
        · have htl : tl.any (fun kv => kv.1 = k) := by
            simpa [List.any_cons, hk] using h
          simpa [mapGet, List.find?, hk] using ih htl
  · simp only [mapSet, h, if_neg, Bool.false_eq_true, not_false_eq_true]
    induction m with
    | nil => simp [mapGet, List.find?]
    | cons kv tl ih =>
        have hk : ¬ kv.1 = k := by
          intro hkk
          exact h (by simp [List.any_cons, hkk])
        have htl : ¬ tl.any (fun kv => kv.1 = k) := by
          intro htl'
          exact h (by simp [List.any_cons, htl'])
        simpa [mapGet, List.find?, hk] using ih htl

theorem handleAuthorizeRequest_success_eq (env : Env) (origin : String)
    (p : AuthorizeParams) (now : Int) (entropy : Nat) (c : CacheState)
    (hcid : p.client_id = some env.clientId)
    (hn : truthy p.nonce = true)
    (hru : truthy p.redirect_uri = true →
      (getAllowedCallbacks origin).contains (jsInterp p.redirect_uri) = true)
    (hsc : truthy p.scope = true)
    (hst : truthy p.state = true) :
    handleAuthorizeRequest env origin p now entropy c =
      (AuthorizeResult.redirect 302
          (jsInterp p.redirect_uri ++ "?code=" ++ randomString 32 entropy
            ++ "&state=" ++ jsInterp p.state),
        { entries := mapSet c.entries (randomString 32 entropy)
            ⟨generateAccessToken env now (jsInterp p.nonce),
              generateIdToken env now "en-CA" (jsInterp p.nonce)⟩
          timers := (randomString 32 entropy, now + 30) :: c.timers }) := by
  have hru' : ¬ (truthy p.redirect_uri = true ∧
      ¬ (getAllowedCallbacks origin).contains (jsInterp p.redirect_uri) = true) := by
    rintro ⟨h1, h2⟩
    exact h2 (hru h1)
  simp [handleAuthorizeRequest, hcid, hn, hru', hsc, hst]
  intro h
  simpa using hru h

/-- C3: `handleAuthorizeRequest` checks, in order, `client_id` against the
configured identifier, presence of `nonce`, membership of a supplied
`redirect_uri` in the origin-derived allow-list, presence of `scope`, and
presence of `state`; the first failing check yields a 400 `{error: <code>}`
response with codes `invalid_client_id`, `invalid_nonce`,
`invalid_redirect_uri`, `invalid_scope`, `invalid_state` respectively, and in
every such failure case the cache is returned unchanged (no code is issued). -/
theorem authorize_validation_order (env : Env) (origin : String)
    (p : AuthorizeParams) (now : Int) (entropy : Nat) (c : CacheState) :
    (p.client_id ≠ some env.clientId →
      handleAuthorizeRequest env origin p now entropy c =
        (AuthorizeResult.error BAD_REQUEST "invalid_client_id", c)) ∧
    (p.client_id = some env.clientId → truthy p.nonce = false →
      handleAuthorizeRequest env origin p now entropy c =
        (AuthorizeResult.error BAD_REQUEST "invalid_nonce", c)) ∧
    (p.client_id = some env.clientId → truthy p.nonce = true →
      truthy p.redirect_uri = true →
      (getAllowedCallbacks origin).contains (jsInterp p.redirect_uri) = false →
      handleAuthorizeRequest env origin p now entropy c =
        (AuthorizeResult.error BAD_REQUEST "invalid_redirect_uri", c)) ∧
    (p.client_id = some env.clientId → truthy p.nonce = true →
      (truthy p.redirect_uri = true →
        (getAllowedCallbacks origin).contains (jsInterp p.redirect_uri) = true) →
      truthy p.scope = false →
      handleAuthorizeRequest env origin p now entropy c =
        (AuthorizeResult.error BAD_REQUEST "invalid_scope", c)) ∧
    (p.client_id = some env.clientId → truthy p.nonce = true →
      (truthy p.redirect_uri = true →
        (getAllowedCallbacks origin).contains (jsInterp p.redirect_uri) = true) →
      truthy p.scope = true → truthy p.state = false →
      handleAuthorizeRequest env origin p now entropy c =
        (AuthorizeResult.error BAD_REQUEST "invalid_state", c)) := by
  refine ⟨?_, ?_, ?_, ?_, ?_⟩
  · intro h
    simp [handleAuthorizeRequest, h]
  · intro h1 h2
    simp [handleAuthorizeRequest, h1, h2]
  · intro h1 h2 h3 h4
    have hnm : jsInterp p.redirect_uri ∉ getAllowedCallbacks origin := by
      simpa using h4
    simp [handleAuthorizeRequest, h1, h2, h3, hnm]
  · intro h1 h2 h3 h4
    have hru' : ¬ (truthy p.redirect_uri = true ∧
        ¬ (getAllowedCallbacks origin).contains (jsInterp p.redirect_uri) = true) := by
      rintro ⟨ha, hb⟩
      exact hb (h3 ha)
    simp [handleAuthorizeRequest, h1, h2, hru', h4]
    intro h
    simpa using h3 h
  · intro h1 h2 h3 h4 h5
    have hru' : ¬ (truthy p.redirect_uri = true ∧
        ¬ (getAllowedCallbacks origin).contains (jsInterp p.redirect_uri) = true) := by
      rintro ⟨ha, hb⟩
      exact hb (h3 ha)
    simp [handleAuthorizeRequest, h1, h2, hru', h4, h5]
    intro h
    simpa using h3 h

/-- Witness for C3: concrete failing authorize requests hit each of the five
ordered checks with the corresponding error code and leave the cache
unchanged. -/
theorem authorize_validation_order_witness :
    (handleAuthorizeRequest sampleEnv sampleOrigin
        { sampleAuthorizeParams with client_id := some "WRONG" } 0 0 ⟨[], []⟩ =
      (AuthorizeResult.error BAD_REQUEST "invalid_client_id", ⟨[], []⟩)) ∧
    (handleAuthorizeRequest sampleEnv sampleOrigin
        { sampleAuthorizeParams with nonce := none } 0 0 ⟨[], []⟩ =
      (AuthorizeResult.error BAD_REQUEST "invalid_nonce", ⟨[], []⟩)) ∧
    (handleAuthorizeRequest sampleEnv sampleOrigin
        { sampleAuthorizeParams with redirect_uri := some "https://evil.example/cb" } 0 0 ⟨[], []⟩ =
      (AuthorizeResult.error BAD_REQUEST "invalid_redirect_uri", ⟨[], []⟩)) ∧
    (handleAuthorizeRequest sampleEnv sampleOrigin
        { sampleAuthorizeParams with scope := some "" } 0 0 ⟨[], []⟩ =
      (AuthorizeResult.error BAD_REQUEST "invalid_scope", ⟨[], []⟩)) ∧
    (handleAuthorizeRequest sampleEnv sampleOrigin
        { sampleAuthorizeParams with state := none } 0 0 ⟨[], []⟩ =
      (AuthorizeResult.error BAD_REQUEST "invalid_state", ⟨[], []⟩)) :=
  ⟨(authorize_validation_order sampleEnv sampleOrigin _ 0 0 _).1 (by decide),
   (authorize_validation_order sampleEnv sampleOrigin _ 0 0 _).2.1 (by decide) (by decide),
   (authorize_validation_order sampleEnv sampleOrigin _ 0 0 _).2.2.1 (by decide) (by decide)
     (by decide) (by decide),
   (authorize_validation_order sampleEnv sampleOrigin _ 0 0 _).2.2.2.1 (by decide) (by decide)
     (by decide) (by decide),
   (authorize_validation_order sampleEnv sampleOrigin _ 0 0 _).2.2.2.2 (by decide) (by decide)
     (by decide) (by decide) (by decide)⟩

/-- C5: every authorize request passing all validation checks (with a supplied,
allow-listed `redirect_uri`) mints one access token and one id token, stores
the pair in the cache under a fresh 32-character code, makes that pair
retrievable under the code, and returns a 302 redirect to
`redirect_uri?code=<code>&state=<state>`. -/
theorem authorize_success_issues_code (env : Env) (origin : String)
    (p : AuthorizeParams) (now : Int) (entropy : Nat) (c : CacheState)
    (ru st : String)
    (hcid : p.client_id = some env.clientId)
    (hn : truthy p.nonce = true)
    (hru : p.redirect_uri = some ru)
    (hallow : (getAllowedCallbacks origin).contains ru = true)
    (hsc : truthy p.scope = true)
    (hst : p.state = some st) (hstne : st ≠ "") :
    handleAuthorizeRequest env origin p now entropy c =
      (AuthorizeResult.redirect 302
          (ru ++ "?code=" ++ randomString 32 entropy ++ "&state=" ++ st),
        { entries := mapSet c.entries (randomString 32 entropy)
            ⟨generateAccessToken env now (jsInterp p.nonce),
              generateIdToken env now "en-CA" (jsInterp p.nonce)⟩
          timers := (randomString 32 entropy, now + 30) :: c.timers })
    ∧ (randomString 32 entropy).length = 32
    ∧ mapGet (handleAuthorizeRequest env origin p now entropy c).2.entries
        (randomString 32 entropy) =
      some ⟨generateAccessToken env now (jsInterp p.nonce),
        generateIdToken env now "en-CA" (jsInterp p.nonce)⟩ := by
  have heq := handleAuthorizeRequest_success_eq env origin p now entropy c hcid hn
    (by intro h; rw [hru] at h ⊢; simpa [jsInterp] using hallow)
    hsc (by simp [hst, truthy, hstne])
  rw [hru, hst] at heq
  refine ⟨by simpa [jsInterp] using heq, randomString_length 32 entropy, ?_⟩
  rw [heq]
  exact mapGet_mapSet_self c.entries (randomString 32 entropy) _

/-- Witness for C5: the concrete end-to-end authorize request from the spec's
scenario issues a code and caches the token pair. -/
theorem authorize_success_issues_code_witness :
    handleAuthorizeRequest sampleEnv sampleOrigin sampleAuthorizeParams 0 0 ⟨[], []⟩ =
      (AuthorizeResult.redirect 302
          ("https://app.example/auth/callback" ++ "?code=" ++ randomString 32 0
            ++ "&state=" ++ "s1"),
        { entries := mapSet [] (randomString 32 0)
            ⟨generateAccessToken sampleEnv 0 (jsInterp sampleAuthorizeParams.nonce),
              generateIdToken sampleEnv 0 "en-CA" (jsInterp sampleAuthorizeParams.nonce)⟩
          timers := [(randomString 32 0, 0 + 30)] })
    ∧ (randomString 32 0).length = 32
    ∧ mapGet (handleAuthorizeRequest sampleEnv sampleOrigin sampleAuthorizeParams 0 0
        ⟨[], []⟩).2.entries (randomString 32 0) =
      some ⟨generateAccessToken sampleEnv 0 (jsInterp sampleAuthorizeParams.nonce),
        generateIdToken sampleEnv 0 "en-CA" (jsInterp sampleAuthorizeParams.nonce)⟩ :=
  authorize_success_issues_code sampleEnv sampleOrigin sampleAuthorizeParams 0 0 ⟨[], []⟩
    "https://app.example/auth/callback" "s1"
    (by decide) (by decide) (by decide) (by decide) (by decide) (by decide) (by decide)

/-- C9: an authorize request with `redirect_uri` absent but all other checks
passing is not rejected: it issues a code, caches the token pair, and
redirects to a target that interpolates the missing parameter as the literal
string `"null"`, i.e. `null?code=<code>&state=<state>`. -/
theorem authorize_missing_redirect_uri_interpolates_null (env : Env) (origin : String)
    (p : AuthorizeParams) (now : Int) (entropy : Nat) (c : CacheState) (st : String)
    (hcid : p.client_id = some env.clientId)
    (hn : truthy p.nonce = true)
    (hru : p.redirect_uri = none)
    (hsc : truthy p.scope = true)
    (hst : p.state = some st) (hstne : st ≠ "") :
    handleAuthorizeRequest env origin p now entropy c =
      (AuthorizeResult.redirect 302
          ("null" ++ "?code=" ++ randomString 32 entropy ++ "&state=" ++ st),
        { entries := mapSet c.entries (randomString 32 entropy)
            ⟨generateAccessToken env now (jsInterp p.nonce),
              generateIdToken env now "en-CA" (jsInterp p.nonce)⟩
          timers := (randomString 32 entropy, now + 30) :: c.timers }) := by
  have heq := handleAuthorizeRequest_success_eq env origin p now entropy c hcid hn
    (by rw [hru]; intro h; simp [truthy] at h)
    hsc (by simp [hst, truthy, hstne])
  rw [hru, hst] at heq
  simpa [jsInterp] using heq

/-- Witness for C9: a concrete authorize request with no `redirect_uri`
redirects to `null?code=...&state=s1` and still caches the pair. -/
theorem authorize_missing_redirect_uri_interpolates_null_witness :
    handleAuthorizeRequest sampleEnv sampleOrigin
        { sampleAuthorizeParams with redirect_uri := none } 0 0 ⟨[], []⟩ =
      (AuthorizeResult.redirect 302
          ("null" ++ "?code=" ++ randomString 32 0 ++ "&state=" ++ "s1"),
        { entries := mapSet [] (randomString 32 0)
            ⟨generateAccessToken sampleEnv 0
                (jsInterp ({ sampleAuthorizeParams with redirect_uri := none } :
                  AuthorizeParams).nonce),
              generateIdToken sampleEnv 0 "en-CA"
                (jsInterp ({ sampleAuthorizeParams with redirect_uri := none } :
                  AuthorizeParams).nonce)⟩
          timers := [(randomString 32 0, 0 + 30)] }) :=
  authorize_missing_redirect_uri_interpolates_null sampleEnv sampleOrigin
    { sampleAuthorizeParams with redirect_uri := none } 0 0 ⟨[], []⟩ "s1"
    (by decide) (by decide) (by decide) (by decide) (by decide) (by decide)

/-- C4: `handleTokenRequest` checks, in order, `client_assertion_type` against
the JWT-bearer constant, `client_id` against the configured identifier,
presence of `client_assertion`, presence of `code`, `grant_type` against
`authorization_code`, and allow-list membership of a supplied `redirect_uri`,
returning a 400 `{error: <code>}` on the first failing check; when all checks
pass and the presented code is in the cache, it returns
`{token_type: "Bearer", access_token, id_token, expires_in: 300}` with the
cached tokens. -/
theorem token_validation_order_and_success (env : Env) (origin : String)
    (p : TokenParams) (now : Int) (c : CacheState) (ts : TokenPair) :
    (p.client_assertion_type ≠ some JWT_BEARER →
      handleTokenRequest env origin p now c =
        (TokenResult.error BAD_REQUEST "invalid_client_assertion_type", c)) ∧
    (p.client_assertion_type = some JWT_BEARER → p.client_id ≠ some env.clientId →
      handleTokenRequest env origin p now c =
        (TokenResult.error BAD_REQUEST "invalid_client", c)) ∧
    (p.client_assertion_type = some JWT_BEARER → p.client_id = some env.clientId →
      truthy p.client_assertion = false →
      handleTokenRequest env origin p now c =
        (TokenResult.error BAD_REQUEST "invalid_client_assertion", c)) ∧
    (p.client_assertion_type = some JWT_BEARER → p.client_id = some env.clientId →
      truthy p.client_assertion = true → truthy p.code = false →
      handleTokenRequest env origin p now c =
        (TokenResult.error BAD_REQUEST "invalid_code", c)) ∧
    (p.client_assertion_type = some JWT_BEARER → p.client_id = some env.clientId →
      truthy p.client_assertion = true → truthy p.code = true →
      p.grant_type ≠ some "authorization_code" →
      handleTokenRequest env origin p now c =
        (TokenResult.error BAD_REQUEST "invalid_grant_type", c)) ∧
    (p.client_assertion_type = some JWT_BEARER → p.client_id = some env.clientId →
      truthy p.client_assertion = true → truthy p.code = true →
      p.grant_type = some "authorization_code" →
      truthy p.redirect_uri = true →
      (getAllowedCallbacks origin).contains (jsInterp p.redirect_uri) = false →
      handleTokenRequest env origin p now c =
        (TokenResult.error BAD_REQUEST "invalid_redirect_uri", c)) ∧
    (p.client_assertion_type = some JWT_BEARER → p.client_id = some env.clientId →
      truthy p.client_assertion = true → truthy p.code = true →
      p.grant_type = some "authorization_code" →
      (truthy p.redirect_uri = true →
        (getAllowedCallbacks origin).contains (jsInterp p.redirect_uri) = true) →
      mapGet c.entries (jsInterp p.code) = some ts →
      handleTokenRequest env origin p now c =
        (TokenResult.success "Bearer" ts.accessToken ts.idToken 300,
          { c with timers := (jsInterp p.code, now + 30) :: c.timers })) := by
  refine ⟨?_, ?_, ?_, ?_, ?_, ?_, ?_⟩
  · intro h1
    simp [handleTokenRequest, h1]
  · intro h1 h2
    simp [handleTokenRequest, h1, h2]
  · intro h1 h2 h3
    simp [handleTokenRequest, h1, h2, h3]
  · intro h1 h2 h3 h4
    simp [handleTokenRequest, h1, h2, h3, h4]
  · intro h1 h2 h3 h4 h5
    simp [handleTokenRequest, h1, h2, h3, h4, h5]
  · intro h1 h2 h3 h4 h5 h6 h7
    have hnm : jsInterp p.redirect_uri ∉ getAllowedCallbacks origin := by
      simpa using h7
    simp [handleTokenRequest, h1, h2, h3, h4, h5, h6, hnm]
  · intro h1 h2 h3 h4 h5 h6 h7
    have hru' : ¬ (truthy p.redirect_uri = true ∧
        ¬ (getAllowedCallbacks origin).contains (jsInterp p.redirect_uri) = true) := by
      rintro ⟨ha, hb⟩
      exact hb (h6 ha)
    simp [handleTokenRequest, h1, h2, h3, h4, h5, hru', h7]
    intro h
    simpa using h6 h

/-- Witness for C4: concrete token requests hit each ordered check and, with
the code in the cache, the exchange returns the cached Bearer tokens with
`expires_in = 300`. -/
theorem token_validation_order_and_success_witness :
    (handleTokenRequest sampleEnv sampleOrigin
        { sampleTokenParams "c0" with client_assertion_type := none } 0 ⟨[], []⟩ =
      (TokenResult.error BAD_REQUEST "invalid_client_assertion_type", ⟨[], []⟩)) ∧
    (handleTokenRequest sampleEnv sampleOrigin
        { sampleTokenParams "c0" with client_id := some "WRONG" } 0 ⟨[], []⟩ =
      (TokenResult.error BAD_REQUEST "invalid_client", ⟨[], []⟩)) ∧
    (handleTokenRequest sampleEnv sampleOrigin
        { sampleTokenParams "c0" with client_assertion := none } 0 ⟨[], []⟩ =
      (TokenResult.error BAD_REQUEST "invalid_client_assertion", ⟨[], []⟩)) ∧
    (handleTokenRequest sampleEnv sampleOrigin
        { sampleTokenParams "c0" with code := none } 0 ⟨[], []⟩ =
      (TokenResult.error BAD_REQUEST "invalid_code", ⟨[], []⟩)) ∧
    (handleTokenRequest sampleEnv sampleOrigin
        { sampleTokenParams "c0" with grant_type := some "implicit" } 0 ⟨[], []⟩ =
      (TokenResult.error BAD_REQUEST "invalid_grant_type", ⟨[], []⟩)) ∧
    (handleTokenRequest sampleEnv sampleOrigin
        { sampleTokenParams "c0" with redirect_uri := some "https://evil.example/cb" } 0
        ⟨[], []⟩ =
      (TokenResult.error BAD_REQUEST "invalid_redirect_uri", ⟨[], []⟩)) ∧
    (handleTokenRequest sampleEnv sampleOrigin (sampleTokenParams "c0") 0
        ⟨[("c0", ⟨generateAccessToken sampleEnv 0 "n1",
            generateIdToken sampleEnv 0 "en-CA" "n1"⟩)], []⟩ =
      (TokenResult.success "Bearer" (generateAccessToken sampleEnv 0 "n1")
          (generateIdToken sampleEnv 0 "en-CA" "n1") 300,
        ⟨[("c0", ⟨generateAccessToken sampleEnv 0 "n1",
            generateIdToken sampleEnv 0 "en-CA" "n1"⟩)], [("c0", 0 + 30)]⟩)) :=
  ⟨(token_validation_order_and_success sampleEnv sampleOrigin _ 0 _
      ⟨generateAccessToken sampleEnv 0 "n1", generateIdToken sampleEnv 0 "en-CA" "n1"⟩).1
      (by decide),
   (token_validation_order_and_success sampleEnv sampleOrigin _ 0 _
      ⟨generateAccessToken sampleEnv 0 "n1", generateIdToken sampleEnv 0 "en-CA" "n1"⟩).2.1
      (by decide) (by decide),
   (token_validation_order_and_success sampleEnv sampleOrigin _ 0 _
      ⟨generateAccessToken sampleEnv 0 "n1", generateIdToken sampleEnv 0 "en-CA" "n1"⟩).2.2.1
      (by decide) (by decide) (by decide),
   (token_validation_order_and_success sampleEnv sampleOrigin _ 0 _
      ⟨generateAccessToken sampleEnv 0 "n1", generateIdToken sampleEnv 0 "en-CA" "n1"⟩).2.2.2.1
      (by decide) (by decide) (by decide) (by decide),
   (token_validation_order_and_success sampleEnv sampleOrigin _ 0 _
      ⟨generateAccessToken sampleEnv 0 "n1", generateIdToken sampleEnv 0 "en-CA" "n1"⟩).2.2.2.2.1
      (by decide) (by decide) (by decide) (by decide) (by decide),
   (token_validation_order_and_success sampleEnv sampleOrigin _ 0 _
      ⟨generateAccessToken sampleEnv 0 "n1", generateIdToken sampleEnv 0 "en-CA" "n1"⟩).2.2.2.2.2.1
      (by decide) (by decide) (by decide) (by decide) (by decide) (by decide) (by decide),
   (token_validation_order_and_success sampleEnv sampleOrigin (sampleTokenParams "c0") 0
      ⟨[("c0", ⟨generateAccessToken sampleEnv 0 "n1",
          generateIdToken sampleEnv 0 "en-CA" "n1"⟩)], []⟩
      ⟨generateAccessToken sampleEnv 0 "n1", generateIdToken sampleEnv 0 "en-CA" "n1"⟩).2.2.2.2.2.2
      (by decide) (by decide) (by decide) (by decide) (by decide) (by decide) (by decide)⟩

/-- C2: a cache entry created by a successful authorize request carries a
deletion timer due 30 seconds after insertion; once the clock has advanced
more than 30 seconds past issuance the entry is gone, so a token request
presenting that code (and passing the endpoint's earlier validation checks)
returns the `invalid_auth_code` error. -/
theorem expired_code_exchange_fails (env : Env) (origin : String)
    (p : AuthorizeParams) (tp : TokenParams) (t0 t : Int) (entropy : Nat)
    (c : CacheState)
    (hcid : p.client_id = some env.clientId)
    (hn : truthy p.nonce = true)
    (hru : truthy p.redirect_uri = true →
      (getAllowedCallbacks origin).contains (jsInterp p.redirect_uri) = true)
    (hsc : truthy p.scope = true)
    (hst : truthy p.state = true)
    (ht : t0 + 30 < t)
    (htp1 : tp.client_assertion_type = some JWT_BEARER)
    (htp2 : tp.client_id = some env.clientId)
    (htp3 : truthy tp.client_assertion = true)
    (htp4 : tp.code = some (randomString 32 entropy))
    (htp5 : tp.grant_type = some "authorization_code")
    (htp6 : truthy tp.redirect_uri = true →
      (getAllowedCallbacks origin).contains (jsInterp tp.redirect_uri) = true) :
    mapGet (fireTimers t (handleAuthorizeRequest env origin p t0 entropy c).2).entries
        (randomString 32 entropy) = none ∧
    (handleTokenRequest env origin tp t
        (fireTimers t (handleAuthorizeRequest env origin p t0 entropy c).2)).1 =
      TokenResult.error BAD_REQUEST "invalid_auth_code" := by
  have heq := handleAuthorizeRequest_success_eq env origin p t0 entropy c hcid hn hru hsc hst
  have hnone : mapGet
      (fireTimers t (handleAuthorizeRequest env origin p t0 entropy c).2).entries
      (randomString 32 entropy) = none := by
    rw [heq]
    exact fireTimers_deletes_due_code t (t0 + 30) (randomString 32 entropy) c.timers _
      (by omega)
  refine ⟨hnone, ?_⟩
  have hcode : truthy tp.code = true := by
    rw [htp4]
    simpa [truthy] using randomString_ne_empty entropy
  have hjs : jsInterp tp.code = randomString 32 entropy := by
    rw [htp4]
    rfl
  simp [handleTokenRequest, htp1, htp2, htp3, hcode, htp5, hjs, hnone]
  have hcond : ¬ (truthy tp.redirect_uri = true ∧
      jsInterp tp.redirect_uri ∉ getAllowedCallbacks origin) := by
    rintro ⟨ha, hb⟩
    exact hb (by simpa using htp6 ha)
  rw [if_neg hcond]

/-- Witness for C2: the concrete flow — authorize at time 0, clock advanced to
31 seconds, token exchange presenting the issued code — misses the cache and
returns `invalid_auth_code`. -/
theorem expired_code_exchange_fails_witness :
    mapGet (fireTimers 31 (handleAuthorizeRequest sampleEnv sampleOrigin
        sampleAuthorizeParams 0 0 ⟨[], []⟩).2).entries (randomString 32 0) = none ∧
    (handleTokenRequest sampleEnv sampleOrigin (sampleTokenParams (randomString 32 0)) 31
        (fireTimers 31 (handleAuthorizeRequest sampleEnv sampleOrigin
          sampleAuthorizeParams 0 0 ⟨[], []⟩).2)).1 =
      TokenResult.error BAD_REQUEST "invalid_auth_code" :=
  expired_code_exchange_fails sampleEnv sampleOrigin sampleAuthorizeParams
    (sampleTokenParams (randomString 32 0)) 0 31 0 ⟨[], []⟩
    (by decide) (by decide) (by decide) (by decide) (by decide) (by decide)
    (by decide) (by decide) (by decide) (by decide) (by decide) (by decide)

/-- C1 is violated by the source: at the token endpoint the consumed code is
not deleted on read — `tokenCache.get(authCode)` is followed by
`setTimeout(() => tokenCache.delete(authCode), 30_000)`, a deletion due 30
seconds later.  In this concrete trace a code issued at t=0 is exchanged
successfully at t=5, and a second exchange with the same code at t=10 (within
the 30-second TTL) succeeds again with the same tokens instead of returning
`invalid_auth_code`. -/
theorem second_exchange_within_ttl_succeeds :
    (handleTokenRequest sampleEnv sampleOrigin (sampleTokenParams (randomString 32 0)) 5
        (fireTimers 5 (handleAuthorizeRequest sampleEnv sampleOrigin
          sampleAuthorizeParams 0 0 ⟨[], []⟩).2)).1 =
      TokenResult.success "Bearer" (generateAccessToken sampleEnv 0 "n1")
        (generateIdToken sampleEnv 0 "en-CA" "n1") 300 ∧
    (handleTokenRequest sampleEnv sampleOrigin (sampleTokenParams (randomString 32 0)) 10
        (fireTimers 10 (handleTokenRequest sampleEnv sampleOrigin
          (sampleTokenParams (randomString 32 0)) 5
          (fireTimers 5 (handleAuthorizeRequest sampleEnv sampleOrigin
            sampleAuthorizeParams 0 0 ⟨[], []⟩).2)).2)).1 =
      TokenResult.success "Bearer" (generateAccessToken sampleEnv 0 "n1")
        (generateIdToken sampleEnv 0 "en-CA" "n1") 300 ∧
    (handleTokenRequest sampleEnv sampleOrigin (sampleTokenParams (randomString 32 0)) 10
        (fireTimers 10 (handleTokenRequest sampleEnv sampleOrigin
          (sampleTokenParams (randomString 32 0)) 5
          (fireTimers 5 (handleAuthorizeRequest sampleEnv sampleOrigin
            sampleAuthorizeParams 0 0 ⟨[], []⟩).2)).2)).1 ≠
      TokenResult.error BAD_REQUEST "invalid_auth_code" := by
  decide

/-- C6: every token minted by the provider — access, id, and userinfo — has
`exp = iat + 20` minutes, `nbf = iat - 30` seconds (hence `exp > nbf` and
`nbf ≤ iat`), `aud` equal to the configured client identifier, and `iss`
equal to the configured issuer string. -/
theorem token_claims_invariants (env : Env) (now : Int)
    (nonce locale birthdate sin : String) :
    ((generateAccessToken env now nonce).claims.exp =
        (generateAccessToken env now nonce).claims.iat + 20 * 60 ∧
      (generateAccessToken env now nonce).claims.nbf =
        (generateAccessToken env now nonce).claims.iat - 30 ∧
      (generateAccessToken env now nonce).claims.exp >
        (generateAccessToken env now nonce).claims.nbf ∧
      (generateAccessToken env now nonce).claims.nbf ≤
        (generateAccessToken env now nonce).claims.iat ∧
      (generateAccessToken env now nonce).claims.aud = env.clientId ∧
      (generateAccessToken env now nonce).claims.iss = env.issuer) ∧
    ((generateIdToken env now locale nonce).claims.exp =
        (generateIdToken env now locale nonce).claims.iat + 20 * 60 ∧
      (generateIdToken env now locale nonce).claims.nbf =
        (generateIdToken env now locale nonce).claims.iat - 30 ∧
      (generateIdToken env now locale nonce).claims.exp >
        (generateIdToken env now locale nonce).claims.nbf ∧
      (generateIdToken env now locale nonce).claims.nbf ≤
        (generateIdToken env now locale nonce).claims.iat ∧
      (generateIdToken env now locale nonce).claims.aud = env.clientId ∧
      (generateIdToken env now locale nonce).claims.iss = env.issuer) ∧
    ((generateUserinfoToken env now birthdate locale sin).claims.exp =
        (generateUserinfoToken env now birthdate locale sin).claims.iat + 20 * 60 ∧
      (generateUserinfoToken env now birthdate locale sin).claims.nbf =
        (generateUserinfoToken env now birthdate locale sin).claims.iat - 30 ∧
      (generateUserinfoToken env now birthdate locale sin).claims.exp >
        (generateUserinfoToken env now birthdate locale sin).claims.nbf ∧
      (generateUserinfoToken env now birthdate locale sin).claims.nbf ≤
        (generateUserinfoToken env now birthdate locale sin).claims.iat ∧
      (generateUserinfoToken env now birthdate locale sin).claims.aud = env.clientId ∧
      (generateUserinfoToken env now birthdate locale sin).claims.iss = env.issuer) := by
  refine ⟨⟨rfl, rfl, ?_, ?_, rfl, rfl⟩, ⟨rfl, rfl, ?_, ?_, rfl, rfl⟩,
    ⟨rfl, rfl, ?_, ?_, rfl, rfl⟩⟩ <;>
    simp only [generateAccessToken, generateIdToken, generateUserinfoToken,
      JoseToken.claims] <;>
    omega

/-- C7: every minted token is a claim set signed with the server's private
signing key and then encrypted; the wrapping key is purpose-dependent — the
access token is encrypted to the server's own public key, while the id token
and the userinfo token are encrypted to the client's public key. -/
theorem token_encryption_targets (env : Env) (now : Int)
    (nonce locale birthdate sin : String) :
    (∃ claims, generateAccessToken env now nonce =
      JoseToken.encrypted (JoseToken.signed claims (Key.pkcs8 env.serverPrivateKey))
        (Key.spki env.serverPublicKey)) ∧
    (∃ claims, generateIdToken env now locale nonce =
      JoseToken.encrypted (JoseToken.signed claims (Key.pkcs8 env.serverPrivateKey))
        (Key.spki env.clientPublicKey)) ∧
    (∃ claims, generateUserinfoToken env now birthdate locale sin =
      JoseToken.encrypted (JoseToken.signed claims (Key.pkcs8 env.serverPrivateKey))
        (Key.spki env.clientPublicKey)) :=
  ⟨⟨_, rfl⟩, ⟨_, rfl⟩, ⟨_, rfl⟩⟩

/-- C8: for every claim set, purpose and codec configuration,
`decrypt_and_verify` applied to `sign_and_encrypt` with the private key
matching the purpose's encryption target returns exactly the original
claims, and decryption with any private key other than the one the token was
encrypted to fails (for every expected purpose). -/
theorem codec_round_trip (e : CodecEnv) (claims : JwtClaims) (p p' : Purpose)
    (k : String) :
    decrypt_and_verify e (sign_and_encrypt e claims p) p (encTargetKeyId e p) =
      some claims ∧
    (k ≠ encTargetKeyId e p →
      decrypt_and_verify e (sign_and_encrypt e claims p) p' k = none) := by
  constructor
  · simp [decrypt_and_verify, sign_and_encrypt]
  · intro hk
    rw [decrypt_and_verify, if_neg]
    rintro ⟨h1, -, -⟩
    exact hk h1.symm

/-- Witness for C8: with concrete keys, decrypting an id token with the
client's private key recovers the claims, and decrypting it with the issuer's
private key fails. -/
theorem codec_round_trip_witness :
    decrypt_and_verify sampleCodecEnv
        (sign_and_encrypt sampleCodecEnv sampleClaims Purpose.id) Purpose.id
        "client-key" = some sampleClaims ∧
    decrypt_and_verify sampleCodecEnv
        (sign_and_encrypt sampleCodecEnv sampleClaims Purpose.id) Purpose.id
        "issuer-key" = none :=
  ⟨(codec_round_trip sampleCodecEnv sampleClaims Purpose.id Purpose.id "issuer-key").1,
   (codec_round_trip sampleCodecEnv sampleClaims Purpose.id Purpose.id "issuer-key").2
     (by decide)⟩

/-- C10: when the browser session holds no `loginState`, the callback handler
returns a 400 `{message: "Invalid login state"}` response, performs no token
exchange, and leaves the session unchanged (in particular no `authState` is
created). -/
theorem callback_without_login_state (origin : String)
    (exchange : String → String → String → AuthState) (s : Session)
    (h : s.loginState = none) :
    handleCallback origin exchange s =
      (CallbackResult.jsonError BAD_REQUEST "Invalid login state", s, false) := by
  simp [handleCallback, h]

/-- Witness for C10: a concrete empty session is rejected with 400 and left
untouched, with no exchange performed. -/
theorem callback_without_login_state_witness :
    handleCallback "https://app.example"
        (fun _ _ _ => ⟨"access-token", sampleClaims, sampleClaims⟩)
        ⟨none, none, none⟩ =
      (CallbackResult.jsonError BAD_REQUEST "Invalid login state",
        ⟨none, none, none⟩, false) :=
  callback_without_login_state "https://app.example"
    (fun _ _ _ => ⟨"access-token", sampleClaims, sampleClaims⟩) ⟨none, none, none⟩ rfl
